import Mathlib

/-!
Shallow embedding of the analytics core of the STUDY_PLANNER repository
(`src/app.py`): the streak-counting loop of `get_streak_data` (lines
348-355) and the recommendation logic of `get_smart_recommendations`
(lines 448-504), abstracted over the rows the SQL layer hands them.

Modelling choices:
* a calendar date is a `Nat` (only its ordering matters to the code);
* SQL integer columns are `Int` (so that out-of-contract inputs such as
  negative counts are expressible, as the error-handling spec demands);
* Python floats are `ℚ`; the thresholds `0.6`, `0.8`, `1.5` become
  `3/5`, `4/5`, `3/2`.  The per-cent formatting `.1%` is modelled with
  exact rational rounding (the claims only exercise it on values that
  are exact multiples of one tenth of a per-cent, where every rounding
  mode agrees);
* `SELECT AVG(...)` results are `Option ℚ` (`none` = SQL `NULL`), and
  Python truthiness on them (`if time_data[0] and ...`) is `pyTruthy`:
  `none` and `some 0` are both falsy.
-/

/-- One row of the streak query of `get_streak_data`: a day together with
its `productive_day` flag (`1` iff at least one task of that day is
completed, modelled as `Bool`). -/
structure DailyActivityRecord where
  day : Nat
  productive : Bool
  deriving DecidableEq

/-- The loop of `get_streak_data` (app.py 348-354): walk the rows in the
given order, add one per `productive` row, stop at the first
non-productive row.  The function itself does not sort; the SQL query
supplies `ORDER BY date DESC`. -/
def computeStreak : List DailyActivityRecord → Nat
  | [] => 0
  | r :: rs => if r.productive then computeStreak rs + 1 else 0

/-- Sorting by day, most recent first (what `ORDER BY date DESC` yields);
used to state order-robustness of `computeStreak`. -/
def sortByDayDesc (l : List DailyActivityRecord) : List DailyActivityRecord :=
  l.insertionSort (fun a b => b.day ≤ a.day)

/-- One row of `get_productivity_stats` (app.py 307-328):
`(date, total_tasks, completed_tasks, planned_time, actual_time)`. -/
structure StatsRow where
  day : Nat
  totalTasks : Int
  completedTasks : Int
  plannedMinutes : Int
  actualMinutes : Int
  deriving DecidableEq

/-- One recommendation dictionary of `get_smart_recommendations`; the
Python dict keys are `type`, `title`, `message`, `action`. -/
structure Recommendation where
  type : String
  title : String
  message : String
  action : String
  deriving DecidableEq

/-- Python `f-string` formatting `x:.1%`: `x * 100` rendered with one
decimal digit and a per-cent sign; modelled by rounding `x * 1000` to the
nearest integer number of tenths of a per-cent. -/
def formatPercent1 (x : ℚ) : String :=
  let t : Int := Int.floor (x * 1000 + 1 / 2)
  let sign := if t < 0 then "-" else ""
  let a := t.natAbs
  sign ++ toString (a / 10) ++ "." ++ toString (a % 10) ++ "%"

/-- The overdue-tasks warning dictionary (app.py 460-465). -/
def overdueRec (overdueCount : Int) : Recommendation :=
  { type := "warning"
    title := "⚠️ Overdue Tasks Alert"
    message := "You have " ++ toString overdueCount ++
      " overdue tasks. Consider rescheduling or breaking them into smaller chunks."
    action := "Review overdue tasks" }

/-- The low-completion-rate tip dictionary (app.py 475-480). -/
def tipRec (avgCompletion : ℚ) : Recommendation :=
  { type := "tip"
    title := "💡 Productivity Boost"
    message := "Your completion rate is " ++ formatPercent1 avgCompletion ++
      ". Try breaking tasks into smaller, manageable chunks."
    action := "Optimize task planning" }

/-- The high-completion-rate success dictionary (app.py 482-487). -/
def successRec (avgCompletion : ℚ) : Recommendation :=
  { type := "success"
    title := "🎉 Great Performance!"
    message := "Excellent completion rate of " ++ formatPercent1 avgCompletion ++
      "! Keep up the great work!"
    action := "Maintain momentum" }

/-- The time-estimation insight dictionary (app.py 496-501). -/
def insightRec : Recommendation :=
  { type := "insight"
    title := "⏰ Time Estimation"
    message := "You\x27re consistently underestimating task duration. Consider adding buffer time."
    action := "Improve time estimates" }

/-- `total_tasks = sum(row[1] for row in stats)` (app.py 470). -/
def totalTasksOf (stats : List StatsRow) : Int :=
  (stats.map StatsRow.totalTasks).sum

/-- `completed_tasks = sum(row[2] for row in stats)` (app.py 471). -/
def completedTasksOf (stats : List StatsRow) : Int :=
  (stats.map StatsRow.completedTasks).sum

/-- `avg_completion = completed_tasks / total_tasks if total_tasks > 0 else 0`
(app.py 472). -/
def avgCompletionOf (stats : List StatsRow) : ℚ :=
  if 0 < totalTasksOf stats then
    (completedTasksOf stats : ℚ) / (totalTasksOf stats : ℚ)
  else 0

/-- The overdue block (app.py 459-465): one warning when
`overdue_count > 0`, nothing otherwise. -/
def overduePart (overdueCount : Int) : List Recommendation :=
  if 0 < overdueCount then [overdueRec overdueCount] else []

/-- The completion-rate block (app.py 469-487): skipped when the stats
list is empty (Python `if stats:`); otherwise a tip below `0.6`, a
success above `0.8`, nothing in between. -/
def ratePart (stats : List StatsRow) : List Recommendation :=
  if stats = [] then []
  else if avgCompletionOf stats < 3 / 5 then [tipRec (avgCompletionOf stats)]
  else if 4 / 5 < avgCompletionOf stats then [successRec (avgCompletionOf stats)]
  else []

/-- Python truthiness of an optional number: `None` and `0` are falsy. -/
def pyTruthy : Option ℚ → Bool
  | none => false
  | some x => decide (x ≠ 0)

/-- The time-management block (app.py 495-501):
`if time_data[0] and time_data[1] and time_data[0] > time_data[1] * 1.5`. -/
def timePart (avgActual avgEstimated : Option ℚ) : List Recommendation :=
  if pyTruthy avgActual && pyTruthy avgEstimated &&
      decide (avgEstimated.getD 0 * (3 / 2) < avgActual.getD 0) then
    [insightRec]
  else []

/-- `get_smart_recommendations` (app.py 448-504) as a pure function of the
three data-layer inputs: the overdue count, the 7-day stats rows and the
two lifetime duration averages.  The list is built by the three appends,
in source order. -/
def buildRecommendations (overdueCount : Int) (stats : List StatsRow)
    (avgActual avgEstimated : Option ℚ) : List Recommendation :=
  overduePart overdueCount ++ ratePart stats ++ timePart avgActual avgEstimated

/-- A recommendation produced by the completion-rate rule, recognised by
its `type` field. -/
def isCompletionRateRec (r : Recommendation) : Bool :=
  r.type == "tip" || r.type == "success"

example : computeStreak [⟨3, true⟩, ⟨2, true⟩, ⟨1, false⟩, ⟨0, true⟩] = 2 := by decide

example : formatPercent1 (3 / 10) = "30.0%" := by with_unfolding_all decide

example : formatPercent1 (5 / 3) = "166.7%" := by with_unfolding_all decide

/-! Helper lemmas shared by the claim theorems. -/

/-- The overdue block only ever contributes a `warning`. -/
theorem overduePart_types (o : Int) :
    List.Sublist ((overduePart o).map Recommendation.type) ["warning"] := by
  unfold overduePart
  split
  · simp [overdueRec]
  · simp

/-- The completion-rate block only ever contributes a `tip` or a `success`. -/
theorem ratePart_types (s : List StatsRow) :
    List.Sublist ((ratePart s).map Recommendation.type) ["tip"] ∨
    List.Sublist ((ratePart s).map Recommendation.type) ["success"] := by
  unfold ratePart
  split
  · left; simp
  split
  · left; simp [tipRec]
  split
  · right; simp [successRec]
  · left; simp

/-- The time-management block only ever contributes an `insight`. -/
theorem timePart_types (a e : Option ℚ) :
    List.Sublist ((timePart a e).map Recommendation.type) ["insight"] := by
  unfold timePart
  split
  · simp [insightRec]
  · simp

/-- No recommendation of the overdue block is a completion-rate one. -/
theorem overduePart_all_not_rate (o : Int) :
    (overduePart o).all (fun r => !(isCompletionRateRec r)) = true := by
  unfold overduePart
  split <;> rfl

/-- No recommendation of the time-management block is a completion-rate one. -/
theorem timePart_all_not_rate (a e : Option ℚ) :
    (timePart a e).all (fun r => !(isCompletionRateRec r)) = true := by
  unfold timePart
  split <;> rfl

/-- No recommendation of the overdue block is an insight. -/
theorem overduePart_all_not_insight (o : Int) :
    (overduePart o).all (fun r => !(r.type == "insight")) = true := by
  unfold overduePart
  split <;> rfl

/-- No recommendation of the completion-rate block is an insight. -/
theorem ratePart_all_not_insight (s : List StatsRow) :
    (ratePart s).all (fun r => !(r.type == "insight")) = true := by
  unfold ratePart
  split
  · rfl
  split
  · rfl
  split <;> rfl

/-- A stats list whose rows all carry at least one task has a total that
dominates its length. -/
theorem length_le_totalTasksOf (s : List StatsRow) (h : ∀ r ∈ s, 1 ≤ r.totalTasks) :
    (s.length : Int) ≤ totalTasksOf s := by
  induction s with
  | nil => simp [totalTasksOf]
  | cons r rs ih =>
    have hr := h r (List.mem_cons_self r rs)
    have hrs := ih fun x hx => h x (List.mem_cons_of_mem r hx)
    simp only [totalTasksOf, List.map_cons, List.sum_cons, List.length_cons] at hrs ⊢
    push_cast
    omega

/-- C2: `computeStreak` returns the length of the longest all-productive
leading run of its input: the empty sequence yields `0`, an
all-productive sequence yields its length, and `k` productive records
followed by one non-productive record yield `k`. -/
theorem computeStreak_spec :
    (∀ l, computeStreak l = (l.takeWhile fun r => r.productive).length) ∧
    computeStreak [] = 0 ∧
    (∀ l, (∀ r ∈ l, r.productive = true) → computeStreak l = l.length) ∧
    (∀ (pre : List DailyActivityRecord) (r : DailyActivityRecord),
      (∀ x ∈ pre, x.productive = true) → r.productive = false →
      computeStreak (pre ++ [r]) = pre.length) := by
  have main : ∀ l, computeStreak l = (l.takeWhile fun r => r.productive).length := by
    intro l
    induction l with
    | nil => rfl
    | cons r rs ih =>
      cases hr : r.productive with
      | true => simp [computeStreak, hr, List.takeWhile_cons, ih]
      | false => simp [computeStreak, hr, List.takeWhile_cons]
  refine ⟨main, rfl, ?_, ?_⟩
  · intro l h
    rw [main, List.takeWhile_eq_self_iff.mpr h]
  · intro pre r hpre hr
    rw [main]
    induction pre with
    | nil => simp [List.takeWhile_cons, hr]
    | cons x xs ih =>
      have hx := hpre x (List.mem_cons_self x xs)
      simp only [List.cons_append, List.takeWhile_cons, hx, if_true, List.length_cons]
      rw [ih fun y hy => hpre y (List.mem_cons_of_mem x hy)]

/-- Witness for C2 at two productive records followed by a
non-productive one. -/
theorem computeStreak_spec_witness :
    computeStreak ([⟨2, true⟩, ⟨1, true⟩] ++ [⟨0, false⟩]) = 2 :=
  computeStreak_spec.2.2.2 [⟨2, true⟩, ⟨1, true⟩] ⟨0, false⟩ (by decide) rfl

/-- C4 counterexample: `computeStreak` consumes its input in the given
order without sorting, so an ascending presentation (oldest first, here a
non-productive day 1 before a productive day 2) yields `0` while the same
records sorted descending yield `1`. -/
theorem computeStreak_order_sensitive :
    computeStreak [⟨1, false⟩, ⟨2, true⟩] ≠
      computeStreak (sortByDayDesc [⟨1, false⟩, ⟨2, true⟩]) := by decide

/-- C4 amended: the streak loop performs no internal sort; its input is
already most-recent-first (the SQL query orders descending), and only on
such already-sorted input is sorting a no-op, so the streak agrees with
the streak of the descending sort exactly then. -/
theorem computeStreak_sorted_noop (l : List DailyActivityRecord)
    (h : l.Sorted fun a b => b.day ≤ a.day) :
    computeStreak (sortByDayDesc l) = computeStreak l := by
  rw [sortByDayDesc, h.insertionSort_eq]

/-- Witness for C4's amended statement on a concrete descending list. -/
theorem computeStreak_sorted_noop_witness :
    ([⟨2, true⟩, ⟨1, false⟩] : List DailyActivityRecord).Sorted
        (fun a b => b.day ≤ a.day) ∧
    computeStreak (sortByDayDesc [⟨2, true⟩, ⟨1, false⟩]) =
      computeStreak [⟨2, true⟩, ⟨1, false⟩] :=
  ⟨by decide, computeStreak_sorted_noop _ (by decide)⟩

/-- C1 counterexample: a window record with `totalTasks = 0` makes the
summed total zero, yet the code takes the `else 0` fallback for the rate
and falls into the `< 0.6` branch, emitting the `0.0%` tip — a
completion-rate recommendation despite a zero total. -/
theorem zeroTotal_record_emits_tip :
    (buildRecommendations 0 [⟨1, 0, 0, 0, 0⟩] none none).any isCompletionRateRec = true := by
  with_unfolding_all decide

/-- C1 amended: when every window record carries at least one task (as
every row produced by the grouping query does), a zero summed total
forces the stats list to be empty, and then the completion-rate rule is
skipped: no tip and no success is emitted, regardless of overdue count
and duration sample.  (A synthesized record with `totalTasks = 0`
instead yields the `0.0%` tip.) -/
theorem zeroTotal_valid_rows_skip_rate (o : Int) (s : List StatsRow) (a e : Option ℚ)
    (hrows : ∀ r ∈ s, 1 ≤ r.totalTasks) (hzero : totalTasksOf s = 0) :
    (buildRecommendations o s a e).all (fun r => !(isCompletionRateRec r)) = true := by
  have hnil : s = [] := by
    cases s with
    | nil => rfl
    | cons r rs =>
      exfalso
      have := length_le_totalTasksOf (r :: rs) hrows
      rw [hzero] at this
      simp at this
      omega
  subst hnil
  rw [buildRecommendations]
  rw [List.all_append, List.all_append]
  rw [overduePart_all_not_rate, timePart_all_not_rate]
  rfl

/-- Witness for C1's amended statement at the empty stats list. -/
theorem zeroTotal_valid_rows_skip_rate_witness :
    ((∀ r ∈ ([] : List StatsRow), 1 ≤ r.totalTasks) ∧ totalTasksOf [] = 0) ∧
    (buildRecommendations 1 [] none none).all (fun r => !(isCompletionRateRec r)) = true :=
  ⟨⟨by simp, by decide⟩, zeroTotal_valid_rows_skip_rate 1 [] none none (by simp) (by decide)⟩

/-- C3 counterexample: out-of-contract stats rows are not rejected — the
engine silently computes.  A row with `completedTasks > totalTasks`
yields rate `5/3` and an ordinary success recommendation reporting
`166.7%`; a row with a negative total takes the `else 0` fallback and
yields the ordinary `0.0%` tip.  No contract violation is signalled on
either input. -/
theorem invalid_counts_not_rejected :
    buildRecommendations 0 [⟨1, 3, 5, 0, 0⟩] none none =
      [ { type := "success", title := "🎉 Great Performance!",
          message := "Excellent completion rate of 166.7%! Keep up the great work!",
          action := "Maintain momentum" } ] ∧
    buildRecommendations 0 [⟨1, -2, 1, 0, 0⟩] none none =
      [ { type := "tip", title := "💡 Productivity Boost",
          message := "Your completion rate is 0.0%. Try breaking tasks into smaller, manageable chunks.",
          action := "Optimize task planning" } ] := by
  constructor
  · have havg : avgCompletionOf [⟨1, 3, 5, 0, 0⟩] = 5 / 3 := by
      with_unfolding_all decide
    have hfp : formatPercent1 (5 / 3) = "166.7%" := by with_unfolding_all decide
    simp only [buildRecommendations, overduePart, ratePart, timePart, havg, hfp,
      successRec, pyTruthy]
    norm_num
    decide
  · have havg : avgCompletionOf [⟨1, -2, 1, 0, 0⟩] = 0 := by
      with_unfolding_all decide
    have hfp : formatPercent1 0 = "0.0%" := by with_unfolding_all decide
    simp only [buildRecommendations, overduePart, ratePart, timePart, havg, hfp,
      tipRec, pyTruthy]
    norm_num
    decide

/-- C3 amended: neither component validates its input.  In particular a
stats list with a positive total but `completedTasks > totalTasks`
(upstream-contract violation) is processed silently: the rate exceeds
`1`, the `> 0.8` branch fires, and the engine returns an ordinary list
containing the success recommendation instead of failing fast. -/
theorem invalid_counts_computed_as_success (o : Int) (s : List StatsRow) (a e : Option ℚ)
    (ht : 0 < totalTasksOf s) (hgt : totalTasksOf s < completedTasksOf s) :
    buildRecommendations o s a e =
      overduePart o ++ [successRec (avgCompletionOf s)] ++ timePart a e := by
  have hne : s ≠ [] := by
    intro h
    subst h
    simp [totalTasksOf] at ht
  have havg1 : 1 < avgCompletionOf s := by
    rw [avgCompletionOf, if_pos ht]
    have htQ : (0 : ℚ) < (totalTasksOf s : ℚ) := by exact_mod_cast ht
    rw [one_lt_div htQ]
    exact_mod_cast hgt
  have h1 : ¬(avgCompletionOf s < 3 / 5) := by linarith
  have h2 : 4 / 5 < avgCompletionOf s := by linarith
  rw [buildRecommendations, ratePart, if_neg hne, if_neg h1, if_pos h2]

/-- Witness for C3's amended statement at a row with 5 of 3 tasks done. -/
theorem invalid_counts_computed_as_success_witness :
    (0 < totalTasksOf [⟨1, 3, 5, 0, 0⟩] ∧
      totalTasksOf [⟨1, 3, 5, 0, 0⟩] < completedTasksOf [⟨1, 3, 5, 0, 0⟩]) ∧
    buildRecommendations 0 [⟨1, 3, 5, 0, 0⟩] none none =
      overduePart 0 ++ [successRec (avgCompletionOf [⟨1, 3, 5, 0, 0⟩])] ++
        timePart none none :=
  ⟨⟨by decide, by decide⟩,
    invalid_counts_computed_as_success 0 [⟨1, 3, 5, 0, 0⟩] none none (by decide) (by decide)⟩

/-- C5: whenever the overdue count is positive the first recommendation
is the overdue warning (title `⚠️ Overdue Tasks Alert`, message naming
the count, action `Review overdue tasks`); and on the concrete input
`overdueCount = 5`, stats summing to 10 total and 3 completed, no
duration sample, the output is exactly the warning mentioning `5`
followed by the tip mentioning `30.0%`. -/
theorem overdue_rule_spec :
    (∀ (o : Int) (s : List StatsRow) (a e : Option ℚ), 0 < o →
        (buildRecommendations o s a e).head? = some (overdueRec o)) ∧
    buildRecommendations 5 [⟨1, 6, 2, 0, 0⟩, ⟨2, 4, 1, 0, 0⟩] none none =
      [ { type := "warning", title := "⚠️ Overdue Tasks Alert",
          message := "You have 5 overdue tasks. Consider rescheduling or breaking them into smaller chunks.",
          action := "Review overdue tasks" },
        { type := "tip", title := "💡 Productivity Boost",
          message := "Your completion rate is 30.0%. Try breaking tasks into smaller, manageable chunks.",
          action := "Optimize task planning" } ] := by
  constructor
  · intro o s a e ho
    rw [buildRecommendations, overduePart, if_pos ho]
    simp
  · have havg : avgCompletionOf [⟨1, 6, 2, 0, 0⟩, ⟨2, 4, 1, 0, 0⟩] = 3 / 10 := by
      with_unfolding_all decide
    have hfp : formatPercent1 (3 / 10) = "30.0%" := by with_unfolding_all decide
    simp only [buildRecommendations, overduePart, ratePart, timePart, havg, hfp,
      overdueRec, tipRec, pyTruthy]
    norm_num
    constructor
    · decide
    · decide

/-- Witness for C5's universally quantified part at overdue count 1. -/
theorem overdue_rule_spec_witness :
    (0 : Int) < 1 ∧ (buildRecommendations 1 [] none none).head? = some (overdueRec 1) :=
  ⟨by decide, overdue_rule_spec.1 1 [] none none (by decide)⟩

/-- C6: the sequence of recommendation kinds produced by
`buildRecommendations` is always a subsequence of `warning`, then one
completion-rate kind (`tip` or `success`), then `insight` — the overdue
alert first when triggered, then the completion-rate advisory, then the
time-estimation advisory, at most one per category and zero or more in
total. -/
theorem recommendation_order_fixed (o : Int) (s : List StatsRow) (a e : Option ℚ) :
    List.Sublist ((buildRecommendations o s a e).map Recommendation.type)
        ["warning", "tip", "insight"] ∨
    List.Sublist ((buildRecommendations o s a e).map Recommendation.type)
        ["warning", "success", "insight"] := by
  have h1 := overduePart_types o
  have h3 := timePart_types a e
  rcases ratePart_types s with h2 | h2
  · left
    have := (h1.append h2).append h3
    simpa [buildRecommendations, List.map_append] using this
  · right
    have := (h1.append h2).append h3
    simpa [buildRecommendations, List.map_append] using this

/-- C7: a completion rate in the closed interval from 0.6 to 0.8 —
including the two endpoints exactly — triggers neither completion-rate
branch: no tip and no success is emitted. -/
theorem midrange_rate_no_recommendation (o : Int) (s : List StatsRow) (a e : Option ℚ)
    (h1 : 3 / 5 ≤ avgCompletionOf s) (h2 : avgCompletionOf s ≤ 4 / 5) :
    (buildRecommendations o s a e).all (fun r => !(isCompletionRateRec r)) = true := by
  have hrate : ratePart s = [] := by
    rw [ratePart]
    split
    · rfl
    · rw [if_neg (not_lt.mpr h1), if_neg (not_lt.mpr h2)]
  rw [buildRecommendations, hrate]
  rw [List.all_append, List.all_append]
  rw [overduePart_all_not_rate, timePart_all_not_rate]
  rfl

/-- Witness for C7 at rates exactly 0.6 and exactly 0.8. -/
theorem midrange_rate_no_recommendation_witness :
    ((3 : ℚ) / 5 ≤ avgCompletionOf [⟨1, 5, 3, 0, 0⟩] ∧
      avgCompletionOf [⟨1, 5, 3, 0, 0⟩] ≤ 4 / 5 ∧
      (buildRecommendations 0 [⟨1, 5, 3, 0, 0⟩] none none).all
        (fun r => !(isCompletionRateRec r)) = true) ∧
    ((3 : ℚ) / 5 ≤ avgCompletionOf [⟨1, 5, 4, 0, 0⟩] ∧
      avgCompletionOf [⟨1, 5, 4, 0, 0⟩] ≤ 4 / 5 ∧
      (buildRecommendations 0 [⟨1, 5, 4, 0, 0⟩] none none).all
        (fun r => !(isCompletionRateRec r)) = true) :=
  ⟨⟨by with_unfolding_all decide, by with_unfolding_all decide,
      midrange_rate_no_recommendation 0 [⟨1, 5, 3, 0, 0⟩] none none
        (by with_unfolding_all decide) (by with_unfolding_all decide)⟩,
    ⟨by with_unfolding_all decide, by with_unfolding_all decide,
      midrange_rate_no_recommendation 0 [⟨1, 5, 4, 0, 0⟩] none none
        (by with_unfolding_all decide) (by with_unfolding_all decide)⟩⟩

/-- The insight dictionary never comes from the overdue block. -/
theorem insightRec_not_mem_overduePart (o : Int) : insightRec ∉ overduePart o := by
  rw [overduePart]
  split
  · intro h
    rw [List.mem_singleton] at h
    have ht : "insight" = "warning" := congrArg Recommendation.type h
    exact absurd ht (by decide)
  · simp

/-- The insight dictionary never comes from the completion-rate block. -/
theorem insightRec_not_mem_ratePart (s : List StatsRow) : insightRec ∉ ratePart s := by
  rw [ratePart]
  split
  · simp
  split
  · intro h
    rw [List.mem_singleton] at h
    have ht : "insight" = "tip" := congrArg Recommendation.type h
    exact absurd ht (by decide)
  split
  · intro h
    rw [List.mem_singleton] at h
    have ht : "insight" = "success" := congrArg Recommendation.type h
    exact absurd ht (by decide)
  · simp

/-- The kind sequence of the output is a subsequence of
`warning, tip, insight` or of `warning, success, insight`. -/
theorem build_types_sub (o : Int) (s : List StatsRow) (a e : Option ℚ) :
    List.Sublist ((buildRecommendations o s a e).map Recommendation.type)
        ["warning", "tip", "insight"] ∨
    List.Sublist ((buildRecommendations o s a e).map Recommendation.type)
        ["warning", "success", "insight"] := by
  have h1 := overduePart_types o
  have h3 := timePart_types a e
  rcases ratePart_types s with h2 | h2
  · left
    have := (h1.append h2).append h3
    simpa [buildRecommendations, List.map_append] using this
  · right
    have := (h1.append h2).append h3
    simpa [buildRecommendations, List.map_append] using this

/-- C8: the time-estimation insight is emitted exactly when both
duration averages are present and the actual average strictly exceeds
one-and-a-half times the estimated one (averages being positive when
present, as the duration sample provides); equality or an absent value
emits nothing. -/
theorem time_estimation_rule_iff (o : Int) (s : List StatsRow) (a e : Option ℚ)
    (ha : ∀ x, a = some x → 0 < x) (he : ∀ y, e = some y → 0 < y) :
    insightRec ∈ buildRecommendations o s a e ↔
      ∃ x y, a = some x ∧ e = some y ∧ y * (3 / 2) < x := by
  have hsplit : insightRec ∈ buildRecommendations o s a e ↔ insightRec ∈ timePart a e := by
    rw [buildRecommendations]
    simp only [List.mem_append]
    constructor
    · rintro ((h | h) | h)
      · exact absurd h (insightRec_not_mem_overduePart o)
      · exact absurd h (insightRec_not_mem_ratePart s)
      · exact h
    · intro h
      exact Or.inr h
  rw [hsplit, timePart]
  constructor
  · intro h
    split at h
    · rename_i hc
      rw [Bool.and_eq_true, Bool.and_eq_true] at hc
      obtain ⟨⟨hca, hce⟩, hcl⟩ := hc
      cases a with
      | none => simp [pyTruthy] at hca
      | some x =>
        cases e with
        | none => simp [pyTruthy] at hce
        | some y =>
          refine ⟨x, y, rfl, rfl, ?_⟩
          simpa [Option.getD] using of_decide_eq_true hcl
    · simp at h
  · rintro ⟨x, y, rfl, rfl, hxy⟩
    have hx := ha x rfl
    have hy := he y rfl
    rw [if_pos]
    · exact List.mem_singleton.mpr rfl
    · simp only [pyTruthy, Option.getD, Bool.and_eq_true, decide_eq_true_eq]
      exact ⟨⟨ne_of_gt hx, ne_of_gt hy⟩, hxy⟩

/-- Witness for C8 at averages 100 actual versus 50 estimated. -/
theorem time_estimation_rule_iff_witness :
    insightRec ∈ buildRecommendations 0 [] (some 100) (some 50) :=
  (time_estimation_rule_iff 0 [] (some 100) (some 50)
      (fun x hx => by injection hx with h; rw [← h]; norm_num)
      (fun y hy => by injection hy with h; rw [← h]; norm_num)).mpr
    ⟨100, 50, rfl, rfl, by norm_num⟩

/-- C9: the output never holds more than three recommendations and never
holds a tip and a success together — the two completion-rate branches
are mutually exclusive. -/
theorem recommendations_invariants (o : Int) (s : List StatsRow) (a e : Option ℚ) :
    (buildRecommendations o s a e).length ≤ 3 ∧
    ¬((∃ r ∈ buildRecommendations o s a e, r.type = "tip") ∧
      (∃ r ∈ buildRecommendations o s a e, r.type = "success")) := by
  constructor
  · rcases build_types_sub o s a e with h | h
    · have := h.length_le
      rw [List.length_map] at this
      simpa using this
    · have := h.length_le
      rw [List.length_map] at this
      simpa using this
  · rintro ⟨⟨r1, hr1, ht1⟩, ⟨r2, hr2, ht2⟩⟩
    rcases build_types_sub o s a e with h | h
    · have hm : "success" ∈ (buildRecommendations o s a e).map Recommendation.type :=
        List.mem_map.mpr ⟨r2, hr2, ht2⟩
      exact absurd (h.subset hm) (by decide)
    · have hm : "tip" ∈ (buildRecommendations o s a e).map Recommendation.type :=
        List.mem_map.mpr ⟨r1, hr1, ht1⟩
      exact absurd (h.subset hm) (by decide)

/-- C10: a duration sample whose actual average is `0`, or whose
estimated average is `0`, is treated like an absent one by the Python
truthiness test, so the time-estimation rule is skipped and no insight
is emitted. -/
theorem zero_average_skips_time_rule (o : Int) (s : List StatsRow) (a e : Option ℚ)
    (h : a = some 0 ∨ e = some 0) :
    (buildRecommendations o s a e).all (fun r => !(r.type == "insight")) = true := by
  have htp : timePart a e = [] := by
    rcases h with rfl | rfl <;> simp [timePart, pyTruthy]
  rw [buildRecommendations, htp]
  rw [List.all_append, List.all_append]
  rw [overduePart_all_not_insight, ratePart_all_not_insight]
  rfl

/-- Witness for C10 with a zero actual average and estimated average 5. -/
theorem zero_average_skips_time_rule_witness :
    (some (0 : ℚ) = some 0 ∨ some (5 : ℚ) = some 0) ∧
    (buildRecommendations 0 [] (some 0) (some 5)).all
      (fun r => !(r.type == "insight")) = true :=
  ⟨Or.inl rfl, zero_average_skips_time_rule 0 [] (some 0) (some 5) (Or.inl rfl)⟩
